import Mathlib

/-!
Verification of the FaceSwapLab swap-and-composite pipeline.

This file is a shallow embedding of the core of
`scripts/faceswaplab_swapping/swapper.py` and
`scripts/faceswaplab_swapping/upscaled_inswapper.py`.

Modelling conventions:
* Python floats are idealised as exact arithmetic (`ℚ` for data that the code
  only combines linearly, `ℝ` where the cosine similarity needs square roots).
* External collaborators (the insightface detector, the ONNX swap engine,
  cv2 primitives, PIL conversions, the NSFW checker and string formatting)
  are abstracted as parameters, exactly as the specification treats them.
* Python exceptions are modelled with `Except PyErr`.
-/

namespace FaceSwapLab

/-- Python exceptions that the embedded code can raise. -/
inductive PyErr where
  | valueError
  | assertionError
  | attributeError
  deriving DecidableEq, Repr

/-- A detected-face record (`insightface.app.common.Face`).
`bbox` is `(x0, y0, x1, y1)`; it is `none` for synthetic faces such as the
output of `blend_faces`, which sets only `embedding`, `gender` and `age`. -/
structure Face where
  embedding : List ℚ
  gender : ℕ
  age : ℕ
  bbox : Option (ℚ × ℚ × ℚ × ℚ)
  deriving DecidableEq, Repr

/-! ### Similarity scorer (`cosine_similarity_face`, swapper.py lines 35-59) -/

/-- Dot product of two embedding vectors (`numpy` row-vector product). -/
def dotl (a b : List ℚ) : ℚ := (List.zipWith (· * ·) a b).sum

/-- L2 norm of an embedding vector. -/
noncomputable def l2norm (a : List ℚ) : ℝ := Real.sqrt ((dotl a a : ℚ) : ℝ)

/-- The norm used by `sklearn.preprocessing.normalize`: zero norms are
replaced by `1` so that zero vectors are left unchanged (this is the
`norms[norms == 0.0] = 1.0` step inside sklearn's `normalize`). -/
noncomputable def sknorm (a : List ℚ) : ℝ :=
  if l2norm a = 0 then 1 else l2norm a

/-- Embedding of `sklearn.metrics.pairwise.cosine_similarity` on two
single-row vectors. -/
noncomputable def sk_cosine_similarity (a b : List ℚ) : ℝ :=
  ((dotl a b : ℚ) : ℝ) / (sknorm a * sknorm b)

/-- Embedding of `cosine_similarity_face` (swapper.py lines 35-59): cosine
similarity of
the two embeddings, clamped below at `0` (`max(0, similarity[0, 0])`). -/
noncomputable def cosine_similarity_face (face1 face2 : Face) : ℝ :=
  max 0 (sk_cosine_similarity face1.embedding face2.embedding)

/-! ### Basic facts about the scorer -/

theorem dotl_nil_left (b : List ℚ) : dotl [] b = 0 := by
  simp [dotl]

theorem dotl_nil_right (a : List ℚ) : dotl a [] = 0 := by
  cases a <;> simp [dotl]

theorem dotl_cons (a b : ℚ) (as bs : List ℚ) :
    dotl (a :: as) (b :: bs) = a * b + dotl as bs := by
  simp [dotl]

theorem dotl_self_nonneg (a : List ℚ) : 0 ≤ dotl a a := by
  induction a with
  | nil => simp [dotl]
  | cons x xs ih =>
      rw [dotl_cons]
      exact add_nonneg (mul_self_nonneg x) ih

/-- Cauchy-Schwarz for list dot products, squared form. -/
theorem dotl_sq_le (a b : List ℚ) : dotl a b ^ 2 ≤ dotl a a * dotl b b := by
  induction a generalizing b with
  | nil => simp [dotl]
  | cons x xs ih =>
      cases b with
      | nil => simp [dotl_nil_right, dotl_self_nonneg, mul_nonneg]
      | cons y ys =>
          have hA : 0 ≤ dotl xs xs := dotl_self_nonneg xs
          have hB : 0 ≤ dotl ys ys := dotl_self_nonneg ys
          have hS : dotl xs ys ^ 2 ≤ dotl xs xs * dotl ys ys := ih ys
          rw [dotl_cons, dotl_cons, dotl_cons]
          rcases eq_or_lt_of_le hB with hB0 | hBpos
          · have hS0 : dotl xs ys = 0 := by
              have : dotl xs ys ^ 2 ≤ 0 := by
                calc dotl xs ys ^ 2 ≤ dotl xs xs * dotl ys ys := hS
                _ = 0 := by rw [← hB0, mul_zero]
              exact pow_eq_zero_iff (n := 2) (by norm_num) |>.mp
                (le_antisymm this (sq_nonneg _))
            rw [hS0, ← hB0]
            nlinarith [sq_nonneg (x * y), mul_self_nonneg y, hA,
              mul_nonneg hA (mul_self_nonneg y)]
          · nlinarith [sq_nonneg (x * dotl ys ys - y * dotl xs ys),
              mul_nonneg (mul_self_nonneg y) (sub_nonneg.mpr hS),
              mul_pos hBpos hBpos, sq_nonneg (x * y - dotl xs ys)]

/-! ### Face locator (`get_faces`, swapper.py lines 194-241)

The insightface analysis model is abstracted as a function
`detector : ℚ → ℕ × ℕ → List Face` from `(det_thresh, det_size)` to the
detected faces (the image argument is fixed by the caller). -/

/-- Sort key `x.bbox[0]` (left x-coordinate).  Detector faces always carry a
bounding box; the default covers the `Option` (Python would raise on a face
without `bbox`, but no such face reaches the sort). -/
def bboxX0 (f : Face) : ℚ := (f.bbox.getD (0, 0, 0, 0)).1

/-- Sort key `(x.bbox[2] - x.bbox[0]) * (x.bbox[3] - x.bbox[1])`
(bounding-box area). -/
def faceArea (f : Face) : ℚ :=
  let b := f.bbox.getD (0, 0, 0, 0)
  (b.2.2.1 - b.1) * (b.2.2.2 - b.2.1)

/-- Stable insert for ascending order on a key: the new element goes after
every already-placed element whose key is `≤` its own, which is how Python's
stable `sorted` orders ties. -/
def insertAscBy (key : Face → ℚ) (f : Face) : List Face → List Face
  | [] => [f]
  | g :: gs => if key g ≤ key f then g :: insertAscBy key f gs else f :: g :: gs

/-- Stable insert for descending order on a key (Python's
`sorted(reverse=True)` keeps ties in input order). -/
def insertDescBy (key : Face → ℚ) (f : Face) : List Face → List Face
  | [] => [f]
  | g :: gs => if key f ≤ key g then g :: insertDescBy key f gs else f :: g :: gs

/-- Python `sorted(faces, key=lambda x: x.bbox[0])`: stable ascending sort. -/
def pySortByX (faces : List Face) : List Face :=
  faces.foldl (fun acc f => insertAscBy bboxX0 f acc) []

/-- Python `sorted(faces, reverse=True, key=area)`: stable descending sort. -/
def pySortBySizeDesc (faces : List Face) : List Face :=
  faces.foldl (fun acc f => insertDescBy faceArea f acc) []

/-- Embedding of `get_faces` (swapper.py lines 194-241).  Here
`opts_threshold` is the value of
`opts.data.get("faceswaplab_detection_threshold", 0.5)` used when
`det_thresh` is `None`.  Faithful details:
* the recursive backoff fires only when no face was found **and** both
  dimensions of `det_size` strictly exceed 320, with both halved (`//2`);
* the recursive call passes `det_thresh` but **not** `sort_by_face_size`,
  which therefore reverts to its default `False` on every retry;
* the `try/except` around the sort cannot fire in the model (sorting is
  total), matching the fact that `sorted` on well-formed keys does not raise.
-/
def get_faces (detector : ℚ → ℕ × ℕ → List Face) (opts_threshold : ℚ)
    (det_size : ℕ × ℕ) (det_thresh : Option ℚ) (sort_by_face_size : Bool) :
    List Face :=
  let dt := det_thresh.getD opts_threshold
  let face := detector dt det_size
  if face = [] ∧ 320 < det_size.1 ∧ 320 < det_size.2 then
    get_faces detector opts_threshold (det_size.1 / 2, det_size.2 / 2)
      (some dt) false
  else if sort_by_face_size then pySortBySizeDesc face
  else pySortByX face
termination_by det_size.1
decreasing_by
  exact Nat.div_lt_self (by omega) (by omega)

/-! ### Identity blender (`blend_faces`, swapper.py lines 313-356) -/

/-- Embedding of `np.mean(embeddings, axis=0)`: element-wise sum divided by
the count
(meaningful when all embeddings share one shape, which `blend_faces`
checks first). -/
def meanEmbedding (es : List (List ℚ)) : List ℚ :=
  let n := (es.headD []).length
  (es.foldr (fun e acc => List.zipWith (· + ·) e acc) (List.replicate n 0)).map
    (fun q => q / (es.length : ℚ))

/-- The `Face(embedding=..., gender=..., age=...)` constructor call inside
`blend_faces`: a synthetic face carrying no bounding box. -/
def mkBlendedFace (embedding : List ℚ) (gender age : ℕ) : Face :=
  { embedding := embedding, gender := gender, age := age, bbox := none }

/-- Embedding of `blend_faces` (swapper.py lines 313-356).
* empty input returns `None` (`.ok none`);
* an embedding whose shape differs from the first raises `ValueError`;
* the blended record copies `gender`/`age` from the first face and carries
  no bounding box;
* the final `assert` raises `AssertionError` when more than one face was
  given and the mean embedding coincides with the first face's embedding. -/
def blend_faces : List Face → Except PyErr (Option Face)
  | [] => .ok none
  | f0 :: rest =>
      let faces := f0 :: rest
      let embeddings := faces.map Face.embedding
      if embeddings.all (fun e => e.length = f0.embedding.length) then
        let blended_embedding := meanEmbedding embeddings
        let blended : Face := mkBlendedFace blended_embedding f0.gender f0.age
        if rest ≠ [] ∧ blended_embedding = f0.embedding then
          .error .assertionError
        else .ok (some blended)
      else .error .valueError

/-! ### Warp-Compositor merge step
(`UpscaledINSwapper.get`, upscaled_inswapper.py lines 178-184)

A single-channel mask is a function from `(row, col)` to a value, a colour
image additionally takes a channel index.  `mergeStep` embeds the tail of the
paste-back branch, starting at the two normalisation statements
`img_mask /= 255` and `fake_diff /= 255`: its mask inputs are the blurred
presence mask and the blurred difference mask as they stand just before
those lines, and its image inputs are the warped generated patch `bgr_fake`
and the original `target_img`. -/

/-- Per-pixel mask (`H × W` float array). -/
abbrev Mask : Type := ℕ → ℕ → ℚ

/-- Per-pixel 3-channel image (`H × W × C` float array). -/
abbrev Image3 : Type := ℕ → ℕ → ℕ → ℚ

/-- Conversion `astype(np.uint8)` on a nonnegative in-range float:
truncation (which
equals `⌊·⌋` on nonnegative values) followed by the wrap modulo 256. -/
def toU8 (q : ℚ) : ℕ := (Int.floor q % 256).toNat

/-- Lines 178-184 of `upscaled_inswapper.py`:
`img_mask /= 255`, `fake_diff /= 255`, reshape of `img_mask` to `(H, W, 1)`
(broadcast over channels), then
`fake_merged = img_mask * bgr_fake + (1-img_mask) * target_img` and the cast
`fake_merged.astype(np.uint8)`.  `fake_diff` is normalised, exactly as in the
source, and then never read again. -/
def mergeStep (img_mask fake_diff : Mask) (bgr_fake target_img : Image3) :
    ℕ → ℕ → ℕ → ℕ :=
  let img_mask' : Mask := fun y x => img_mask y x / 255
  let fake_diff' : Mask := fun y x => fake_diff y x / 255
  let _unused := fake_diff'
  fun y x c =>
    toU8 (img_mask' y x * bgr_fake y x c + (1 - img_mask' y x) * target_img y x c)

/-! ### Unit pipeline
(`swap_face` and `process_image_unit`, swapper.py lines 359-529) -/

/-- Embedding of `ImageResult` (swapper.py lines 244-265): swapped image
plus the two
index-to-score maps filled by the similarity pass. -/
structure ImageResult (Img : Type) where
  image : Img
  similarity : List (ℕ × ℝ)
  ref_similarity : List (ℕ × ℝ)

/-- External collaborators used by `swap_face` / `process_image_unit`:
the analysis model (per image, threshold and detection size), the ONNX swap
engine `face_swapper.get`, the PIL/cv2 colour conversions, the NSFW check
and the f-string formatting of the result info. -/
structure SwapEnv (Img : Type) where
  analyser : Img → ℚ → ℕ × ℕ → List Face
  swapOne : Img → Face → Face → Bool → Img
  toCv : Img → Img
  toPil : Img → Img
  nsfw : Img → Bool
  fmtInfo : Option String → List (ℕ × ℝ) → List (ℕ × ℝ) → String
  optsThreshold : ℚ

/-- Embedding of `FaceSwapUnitSettings`: the configuration bundle of one
swap unit.  The
class itself lives outside the four embedded source files; its fields are
taken from their use in `swapper.py` and from the spec's `SwapUnit` data
model (`blended_faces` is the precomputed Identity-Blender output). -/
structure FaceSwapUnitSettings where
  enable : Bool
  faces : List Face
  blended_faces : Face
  reference_face : Option Face
  faces_index : List ℕ
  same_gender : Bool
  blend_faces : Bool
  sort_by_size : Bool
  check_similarity : Bool
  compute_similarity : Bool
  min_sim : ℝ
  min_ref_sim : ℝ

/-- Embedding of `swap_face` (swapper.py lines 359-442).  Steps: convert
the target to
cv2 (`toCv`), locate the target faces (`get_faces` with default detection
size and threshold), optionally filter by the source face's gender, fold the
swap engine over the faces whose position is in `faces_index`, convert back
(`toPil`); when `compute_similarity` is set, re-detect faces on the result
image, apply the same gender filter, and record both similarity scores for
every index that is in `faces_index` and below the target-face count. -/
noncomputable def swap_face {Img : Type} (env : SwapEnv Img)
    (reference_face source_face : Face) (target_img : Img)
    (faces_index : List ℕ) (same_gender : Bool) (upscaled_swapper : Bool)
    (compute_similarity : Bool) (sort_by_face_size : Bool) :
    ImageResult Img :=
  let tcv := env.toCv target_img
  let gender := source_face.gender
  let target_faces0 :=
    get_faces (env.analyser tcv) env.optsThreshold (640, 640) none
      sort_by_face_size
  let target_faces :=
    if same_gender then target_faces0.filter (fun x => x.gender = gender)
    else target_faces0
  let result := target_faces.enum.foldl
    (fun acc p =>
      if p.1 ∈ faces_index then env.swapOne acc p.2 source_face upscaled_swapper
      else acc) tcv
  let result_image := env.toPil result
  if compute_similarity then
    let result_faces0 :=
      get_faces (env.analyser (env.toCv result_image)) env.optsThreshold
        (640, 640) none sort_by_face_size
    let result_faces :=
      if same_gender then result_faces0.filter (fun x => x.gender = gender)
      else result_faces0
    let sims := result_faces.enum.filterMap
      (fun p =>
        if p.1 ∈ faces_index ∧ p.1 < target_faces.length then
          some (p.1, cosine_similarity_face source_face p.2)
        else none)
    let refsims := result_faces.enum.filterMap
      (fun p =>
        if p.1 ∈ faces_index ∧ p.1 < target_faces.length then
          some (p.1, cosine_similarity_face reference_face p.2)
        else none)
    { image := result_image, similarity := sims, ref_similarity := refsims }
  else
    { image := result_image, similarity := [], ref_similarity := [] }

open scoped Classical

/-- The acceptance condition of `process_image_unit` (swapper.py lines
506-517).  In the source it reads
`(not unit.check_similarity) or result.similarity and all([...]) and
all([...])`; the list literal `[result.similarity.values() != 0]` compares a
`dict_values` object with an integer and is therefore the constant `True`,
so each `all` reduces to its comprehension, and the truthiness test
`result.similarity` requires the similarity map to be non-empty (no such
test exists for `ref_similarity`). -/
def acceptResult {Img : Type} (u : FaceSwapUnitSettings)
    (r : ImageResult Img) : Prop :=
  ¬ u.check_similarity = true ∨
    (r.similarity ≠ [] ∧ (∀ p ∈ r.similarity, u.min_sim ≤ p.2) ∧
      (∀ p ∈ r.ref_similarity, u.min_ref_sim ≤ p.2))

/-- The identity set chosen by `process_image_unit` when it does not raise:
all configured source faces, or the single blended face. -/
def pyUnitSrcFaces (u : FaceSwapUnitSettings) (force_blend : Bool) :
    List Face :=
  if u.blend_faces = false ∧ force_blend = false then u.faces
  else [u.blended_faces]

/-- The `src_faces` computation of `process_image_unit` (swapper.py lines
468-480), including its failure modes: in the blend branch, when more than
one face is configured, the `assert` dereferences
`unit.reference_face.embedding` (raising `AttributeError` when the
reference face is absent) and raises `AssertionError` when it equals the
blended embedding. -/
def pyUnitSrcFacesE (u : FaceSwapUnitSettings) (force_blend : Bool) :
    Except PyErr (List Face) :=
  if u.blend_faces = false ∧ force_blend = false then .ok u.faces
  else if 1 < u.faces.length then
    match u.reference_face with
    | none => .error .attributeError
    | some rf =>
        if rf.embedding = u.blended_faces.embedding then
          .error .assertionError
        else .ok [u.blended_faces]
  else .ok [u.blended_faces]

/-- The per-identity loop of `process_image_unit` (swapper.py lines
482-527): each identity is swapped via `swap_face` (the reference face
defaults to the identity itself when the unit has none) and the result is
appended exactly when the acceptance condition holds. -/
noncomputable def keptResults {Img : Type} (env : SwapEnv Img)
    (u : FaceSwapUnitSettings) (image : Img) (info : Option String)
    (upscaled_swapper : Bool) (src_faces : List Face) :
    List (Img × Option String) :=
  src_faces.filterMap (fun src_face =>
    let reference_face := u.reference_face.getD src_face
    let result := swap_face env reference_face src_face image
      u.faces_index u.same_gender upscaled_swapper u.compute_similarity
      u.sort_by_size
    if acceptResult u result then
      some (result.image,
        some (env.fmtInfo info result.similarity result.ref_similarity))
    else none)

/-- Embedding of `process_image_unit` (swapper.py lines 445-529).
* a disabled unit produces `[]`;
* an NSFW-flagged image short-circuits to the single pair `(image, info)`;
* otherwise the identity set is chosen (`pyUnitSrcFacesE`, which can raise)
  and the accepted swap results are collected (`keptResults`). -/
noncomputable def process_image_unit {Img : Type} (env : SwapEnv Img)
    (model : String) (u : FaceSwapUnitSettings) (image : Img)
    (info : Option String) (upscaled_swapper : Bool) (force_blend : Bool) :
    Except PyErr (List (Img × Option String)) :=
  if u.enable = false then .ok [] else
  if env.nsfw image = true then .ok [(image, info)] else
  (pyUnitSrcFacesE u force_blend).map
    (keptResults env u image info upscaled_swapper)

/-- Embedding of `process_images_units` (swapper.py lines 532-560).  The
base case of the
recursion returns `None`; otherwise unit 0 is applied to every input image
and the remaining units to each fan-out, a falsy recursive result (`None`
or the empty list, Python's `if nexts:`) falling back to the current
fan-out. -/
noncomputable def process_images_units {Img : Type} (env : SwapEnv Img)
    (model : String) (units : List FaceSwapUnitSettings)
    (images : List (Img × Option String)) (upscaled_swapper : Bool)
    (force_blend : Bool) :
    Except PyErr (Option (List (Img × Option String))) :=
  match units with
  | [] => .ok none
  | u :: rest =>
      (images.foldlM (fun acc (p : Img × Option String) => do
        let swapped ← process_image_unit env model u p.1 p.2 upscaled_swapper
          force_blend
        let nexts ← process_images_units env model rest swapped
          upscaled_swapper force_blend
        pure (acc ++ match nexts with
          | none => swapped
          | some l => if l = [] then swapped else l)) []).map some

/-! ### Helper lemmas -/

theorem toU8_natCast (n : ℕ) (h : n < 256) : toU8 (n : ℚ) = n := by
  rw [toU8, Int.floor_natCast,
    Int.emod_eq_of_lt (by positivity) (by exact_mod_cast h)]
  simp

theorem zipWith_add_replicate_zero (e : List ℚ) :
    List.zipWith (· + ·) e (List.replicate e.length 0) = e := by
  induction e with
  | nil => rfl
  | cons x xs ih => simp [List.replicate_succ, ih]

theorem meanEmbedding_singleton (e : List ℚ) : meanEmbedding [e] = e := by
  unfold meanEmbedding
  simp [zipWith_add_replicate_zero]

theorem map_div2_zipWith_add (e0 e1 : List ℚ) :
    (List.zipWith (· + ·) e0 e1).map (fun q => q / 2)
      = List.zipWith (fun a b => (a + b) / 2) e0 e1 := by
  induction e0 generalizing e1 with
  | nil => simp
  | cons x xs ih => cases e1 <;> simp [ih]

theorem meanEmbedding_pair (e0 e1 : List ℚ) (h : e1.length = e0.length) :
    meanEmbedding [e0, e1] = List.zipWith (fun a b => (a + b) / 2) e0 e1 := by
  unfold meanEmbedding
  simp only [List.headD, List.length_cons, List.length_nil, List.foldr]
  rw [← h, zipWith_add_replicate_zero]
  have h2 : ((0 + 1 + 1 : ℕ) : ℚ) = 2 := by norm_num
  simp only [h2]
  exact map_div2_zipWith_add e0 e1

theorem zipWith_avg_eq_left (e0 e1 : List ℚ) (h : e1.length = e0.length) :
    List.zipWith (fun a b => (a + b) / 2) e0 e1 = e0 ↔ e1 = e0 := by
  induction e0 generalizing e1 with
  | nil =>
      cases e1 with
      | nil => simp
      | cons y ys => simp at h
  | cons x xs ih =>
      cases e1 with
      | nil => simp at h
      | cons y ys =>
          simp only [List.zipWith, List.cons.injEq]
          rw [ih ys (by simpa using h)]
          constructor <;> intro hc
          · exact ⟨by linarith [hc.1], hc.2⟩
          · exact ⟨by rw [hc.1]; ring, hc.2⟩

/-! ### Claim C1 -/

/-- C1: in the paste-back merge of `UpscaledINSwapper.get`, after the
presence mask and the difference mask are normalised to `[0,1]`, the
returned composited image equals, per pixel,
`presenceMask * warpedFake + (1 - presenceMask) * originalTarget`, computed
in exact arithmetic and cast to 8-bit; the difference mask contributes
nothing to the blend weight (the output is invariant under replacing it);
at a pixel whose normalised presence mask is `1` (raw value `255`) the
output is the warped generated patch, and at a pixel whose mask is `0` the
original target pixel is unchanged. -/
theorem C1_merge_presence_mask_only
    (img_mask fake_diff fake_diff' : Mask) (bgr_fake target_img : Image3) :
    mergeStep img_mask fake_diff bgr_fake target_img
        = mergeStep img_mask fake_diff' bgr_fake target_img ∧
    (∀ y x c, mergeStep img_mask fake_diff bgr_fake target_img y x c
        = toU8 (img_mask y x / 255 * bgr_fake y x c
            + (1 - img_mask y x / 255) * target_img y x c)) ∧
    (∀ y x c (n : ℕ), n < 256 → bgr_fake y x c = (n : ℚ) →
        img_mask y x = 255 →
        mergeStep img_mask fake_diff bgr_fake target_img y x c = n) ∧
    (∀ y x c (n : ℕ), n < 256 → target_img y x c = (n : ℚ) →
        img_mask y x = 0 →
        mergeStep img_mask fake_diff bgr_fake target_img y x c = n) := by
  refine ⟨rfl, fun y x c => rfl, ?_, ?_⟩
  · intro y x c n hn hf hm
    have : img_mask y x / 255 * bgr_fake y x c
        + (1 - img_mask y x / 255) * target_img y x c = (n : ℚ) := by
      rw [hm, hf]; norm_num
    show toU8 _ = n
    rw [this, toU8_natCast n hn]
  · intro y x c n hn ht hm
    have : img_mask y x / 255 * bgr_fake y x c
        + (1 - img_mask y x / 255) * target_img y x c = (n : ℚ) := by
      rw [hm, ht]; norm_num
    show toU8 _ = n
    rw [this, toU8_natCast n hn]

/-- Witness for C1 applied at concrete pixels: with a raw presence mask of
`255` the merged pixel is the generated-patch value `200`; with a raw mask
of `0` it is the target value `7`. -/
theorem C1_merge_presence_mask_only_witness :
    mergeStep (fun _ _ => 255) (fun _ _ => 9) (fun _ _ _ => 200)
        (fun _ _ _ => 7) 0 0 0 = 200 ∧
    mergeStep (fun _ _ => 0) (fun _ _ => 9) (fun _ _ _ => 200)
        (fun _ _ _ => 7) 0 0 0 = 7 := by
  constructor
  · exact (C1_merge_presence_mask_only (fun _ _ => 255) (fun _ _ => 9)
      (fun _ _ => 9) (fun _ _ _ => 200) (fun _ _ _ => 7)).2.2.1 0 0 0 200
      (by norm_num) (by norm_num) rfl
  · exact (C1_merge_presence_mask_only (fun _ _ => 0) (fun _ _ => 9)
      (fun _ _ => 9) (fun _ _ _ => 200) (fun _ _ _ => 7)).2.2.2 0 0 0 7
      (by norm_num) (by norm_num) rfl

/-! ### Concrete data used by counterexamples and witnesses -/

/-- A concrete collaborator environment over `Img := ℕ`: the detector finds
no face, the swap engine is the identity, conversions are identities, every
image is content-safe and the info formatter returns the empty string. -/
def WEnv : SwapEnv ℕ where
  analyser := fun _ _ _ => []
  swapOne := fun a _ _ _ => a
  toCv := id
  toPil := id
  nsfw := fun _ => false
  fmtInfo := fun _ _ _ => ""
  optsThreshold := 1/2

def cexFace0 : Face := { embedding := [0], gender := 0, age := 30, bbox := none }

def cexFace1 : Face := { embedding := [1], gender := 0, age := 30, bbox := none }

def cexFace2 : Face := { embedding := [-1], gender := 1, age := 40, bbox := none }

/-! ### Claim C5 -/

/-- C5 counterexample: `process_images_units` with an empty unit list does
not return the input list `[(0, None)]`; it returns `None`
(swapper.py line 539-541: `if len(units) == 0: ... return None`). -/
theorem C5_cex :
    process_images_units WEnv "model" [] [((0 : ℕ), none)] false false
      ≠ .ok (some [((0 : ℕ), none)]) := by
  simp [process_images_units]

/-- C5 (amended): `process_images_units` called with an empty unit list
returns `None` (an absent result) rather than the input list; the recursive
caller treats this falsy value by keeping its current fan-out, so the empty
unit list still terminates the recursion without further transformation. -/
theorem C5_empty_units_returns_none {Img : Type} (env : SwapEnv Img)
    (model : String) (images : List (Img × Option String))
    (upscaled_swapper force_blend : Bool) :
    process_images_units env model [] images upscaled_swapper force_blend
      = .ok none := rfl

/-! ### Claim C7 -/

/-- C7 counterexample: three faces with pairwise distinct equal-shape
embeddings `[0]`, `[1]`, `[-1]` whose mean `[0]` coincides with the first
embedding: `blend_faces` hits its `assert` and raises instead of returning,
so the invariant does not hold for every pairwise-distinct input of two or
more faces. -/
theorem C7_cex :
    cexFace0.embedding ≠ cexFace1.embedding ∧
    cexFace0.embedding ≠ cexFace2.embedding ∧
    cexFace1.embedding ≠ cexFace2.embedding ∧
    cexFace0.embedding.length = 1 ∧ cexFace1.embedding.length = 1 ∧
    cexFace2.embedding.length = 1 ∧
    blend_faces [cexFace0, cexFace1, cexFace2] = .error .assertionError := by
  have hm : meanEmbedding [[0], [1], [-1]] = [0] := by
    norm_num [meanEmbedding]
  refine ⟨by decide, by decide, by decide, rfl, rfl, rfl, ?_⟩
  simp [blend_faces, cexFace0, cexFace1, cexFace2, hm]

/-- C7 (amended): for exactly two faces with equal-shape, distinct
embeddings the invariant does hold: `blend_faces` succeeds and the blended
embedding differs from the first input's embedding.  (With three or more
pairwise-distinct faces the mean can coincide with the first embedding and
the assertion can fail, as the counterexample shows.) -/
theorem C7_blend_two_distinct (f0 f1 : Face)
    (hlen : f1.embedding.length = f0.embedding.length)
    (hne : f1.embedding ≠ f0.embedding) :
    blend_faces [f0, f1] = .ok (some (mkBlendedFace
      (meanEmbedding [f0.embedding, f1.embedding]) f0.gender f0.age)) ∧
    meanEmbedding [f0.embedding, f1.embedding] ≠ f0.embedding := by
  have hm : meanEmbedding [f0.embedding, f1.embedding] ≠ f0.embedding := by
    rw [meanEmbedding_pair _ _ hlen]
    intro hc
    exact hne ((zipWith_avg_eq_left _ _ hlen).mp hc)
  refine ⟨?_, hm⟩
  simp only [blend_faces, List.map_cons, List.map_nil]
  rw [if_pos, if_neg]
  · intro hc
    exact hm hc.2
  · simp [hlen]

/-- Witness for C7 at embeddings `[1]` and `[-1]`: blending succeeds and the
blended embedding `[0]` differs from `[1]`. -/
theorem C7_blend_two_distinct_witness :
    blend_faces [cexFace1, cexFace2]
      = .ok (some (mkBlendedFace (meanEmbedding [[1], [-1]]) 0 30)) ∧
    meanEmbedding [[1], [-1]] ≠ [1] := by
  have h := C7_blend_two_distinct cexFace1 cexFace2 rfl (by decide)
  exact h

/-! ### Claim C8 -/

/-- C8 counterexample: a non-empty list of faces with equal embedding shapes
on which `blend_faces` does not return a blended record at all: blending a
face with itself makes the mean equal to the first embedding, and the
internal `assert` raises `AssertionError`. -/
theorem C8_cex :
    (∀ f ∈ [cexFace1, cexFace1], f.embedding.length = 1) ∧
    blend_faces [cexFace1, cexFace1] = .error .assertionError := by
  have hm : meanEmbedding [[1], [1]] = [1] := by
    norm_num [meanEmbedding]
  refine ⟨by decide, ?_⟩
  simp [blend_faces, cexFace1, hm]

/-- C8 (amended): for every non-empty list of faces whose embeddings share
one shape, *provided* the mean embedding differs from the first face's
embedding whenever more than one face is given (otherwise the internal
`assert` raises instead of returning), `blend_faces` returns a record whose
embedding is the arithmetic mean of the inputs and whose gender and age are
copied from the first face; blending a single face returns its embedding
unchanged; blending an empty list returns an absent result. -/
theorem C8_blend_mean (f0 : Face) (rest : List Face)
    (hlen : ∀ f ∈ f0 :: rest, f.embedding.length = f0.embedding.length)
    (hassert : rest ≠ [] →
      meanEmbedding ((f0 :: rest).map Face.embedding) ≠ f0.embedding) :
    blend_faces (f0 :: rest) = .ok (some (mkBlendedFace
      (meanEmbedding ((f0 :: rest).map Face.embedding)) f0.gender f0.age)) ∧
    (∀ f : Face,
      blend_faces [f] = .ok (some (mkBlendedFace f.embedding f.gender f.age))) ∧
    blend_faces ([] : List Face) = .ok none := by
  refine ⟨?_, ?_, rfl⟩
  · simp only [blend_faces]
    rw [if_pos, if_neg]
    · intro hc
      exact hassert hc.1 hc.2
    · rw [List.all_eq_true]
      intro e he
      simp only [List.mem_map] at he
      obtain ⟨f, hf, rfl⟩ := he
      simpa using hlen f hf
  · intro f
    simp [blend_faces, meanEmbedding_singleton]

/-- Witness for C8 at the concrete faces with embeddings `[1]` and `[-1]`:
the blend succeeds with the mean embedding and the first face's gender and
age, the singleton case is identity, and the empty case is `None`. -/
theorem C8_blend_mean_witness :
    blend_faces [cexFace1, cexFace2]
      = .ok (some (mkBlendedFace (meanEmbedding [[1], [-1]]) 0 30)) ∧
    (∀ f : Face,
      blend_faces [f] = .ok (some (mkBlendedFace f.embedding f.gender f.age))) ∧
    blend_faces ([] : List Face) = .ok none := by
  have hm : meanEmbedding [[1], [-1]] = [0] := by
    norm_num [meanEmbedding]
  have h := C8_blend_mean cexFace1 [cexFace2] (by decide)
    (fun _ => by simp [cexFace1, cexFace2, hm])
  exact h

/-! ### Claims C2 and C3: the face locator -/

def locFaceSmall : Face :=
  { embedding := [1], gender := 0, age := 30, bbox := some (0, 0, 10, 10) }

def locFaceBig : Face :=
  { embedding := [1], gender := 0, age := 30, bbox := some (20, 0, 40, 20) }

/-- A detector stub that returns a face only at detection sizes of 160×160
or smaller (the stub of the claim's backoff scenario). -/
def det160 : ℚ → ℕ × ℕ → List Face := fun _ s =>
  if s.1 ≤ 160 ∧ s.2 ≤ 160 then [locFaceSmall] else []

/-- A detector stub that returns two faces (areas 100 and 400, in
ascending-x order) exactly at detection size 320×320. -/
def det320 : ℚ → ℕ × ℕ → List Face := fun _ s =>
  if s = (320, 320) then [locFaceSmall, locFaceBig] else []

/-- C2 counterexample: with a detector that finds faces only at sizes of
160×160 or smaller, `get_faces` at 640×640 returns the empty sequence: the
backoff halves 640→320 once and then stops, because the recursion requires
both dimensions to strictly exceed 320, so detection size 160×160 is never
tried. -/
theorem C2_cex : get_faces det160 (1/2) (640, 640) none false = [] := by
  simp [get_faces, det160, pySortByX]

/-- C2 (amended): whenever the detector returns zero faces at 640×640,
`get_faces` halves both dimensions and retries; the halving condition
requires both dimensions to strictly exceed 320, so from 640×640 there is
exactly one backoff step, to 320×320, and the recursion never continues to
160×160; the retry's outcome is returned sorted by left x-coordinate (the
recursive call does not propagate the sort flag). -/
theorem C2_backoff_floor (det : ℚ → ℕ × ℕ → List Face) (t : ℚ) (sbs : Bool)
    (h : det t (640, 640) = []) :
    get_faces det t (640, 640) none sbs = pySortByX (det t (320, 320)) := by
  rw [get_faces]
  simp only [Option.getD_none, Option.getD_some, h]
  norm_num
  rw [get_faces]
  simp only [Option.getD_some]
  norm_num

/-- Witness for C2 (amended) at the concrete detector `det320`, which finds
nothing at 640×640 and two faces at 320×320: one backoff step occurs and the
faces are returned in x-order. -/
theorem C2_backoff_floor_witness :
    get_faces det320 (1/2) (640, 640) none false
      = pySortByX (det320 (1/2) (320, 320)) := by
  exact C2_backoff_floor det320 (1/2) false (by simp [det320])

/-- C3, the code defect: `get_faces` promises (docstring and spec) that with
`sort_by_face_size` the returned faces are ordered by descending
bounding-box area, but the recursive backoff call passes `det_thresh` and
not `sort_by_face_size`, which silently reverts to `False`.  With the
detector `det320` (faces of areas 100 and 400 found only at 320×320) a call
at 640×640 with `sort_by_face_size = true` returns the faces in ascending
x-order (area 100 before area 400), whereas the same call made directly at
320×320 returns them area-descending. -/
theorem C3_sort_flag_dropped_on_backoff :
    get_faces det320 (1/2) (640, 640) none true
      = [locFaceSmall, locFaceBig] ∧
    get_faces det320 (1/2) (320, 320) none true
      = [locFaceBig, locFaceSmall] ∧
    faceArea locFaceSmall < faceArea locFaceBig ∧
    bboxX0 locFaceSmall < bboxX0 locFaceBig := by
  refine ⟨?_, ?_, ?_, ?_⟩
  · rw [get_faces]
    simp only [Option.getD_none]
    norm_num [det320]
    rw [get_faces]
    simp only [Option.getD_some]
    norm_num [det320, pySortByX, insertAscBy, bboxX0, locFaceSmall, locFaceBig]
  · rw [get_faces]
    simp only [Option.getD_none]
    norm_num [det320, pySortBySizeDesc, insertDescBy, faceArea,
      locFaceSmall, locFaceBig]
  · norm_num [faceArea, locFaceSmall, locFaceBig]
  · norm_num [bboxX0, locFaceSmall, locFaceBig]

/-! ### Helper lemmas for the unit pipeline -/

theorem swap_face_no_sim {Img : Type} (env : SwapEnv Img)
    (reference_face source_face : Face) (target_img : Img)
    (faces_index : List ℕ) (same_gender upscaled_swapper sbs : Bool) :
    (swap_face env reference_face source_face target_img faces_index
      same_gender upscaled_swapper false sbs).similarity = [] ∧
    (swap_face env reference_face source_face target_img faces_index
      same_gender upscaled_swapper false sbs).ref_similarity = [] := by
  constructor <;> simp [swap_face]

theorem length_filterMap_eq_of_isSome {α β : Type} (l : List α)
    (f : α → Option β) (h : ∀ a ∈ l, (f a).isSome = true) :
    (l.filterMap f).length = l.length := by
  induction l with
  | nil => rfl
  | cons x xs ih =>
      have hx := h x (List.mem_cons_self x xs)
      cases hfx : f x with
      | none => rw [hfx] at hx; simp at hx
      | some b =>
          rw [List.filterMap_cons, hfx]
          simp only [List.length_cons]
          rw [ih (fun a ha => h a (List.mem_cons_of_mem x ha))]

/-- With `check_similarity` off, the acceptance condition holds for every
candidate, so every identity contributes its pair. -/
theorem keptResults_length_of_no_check {Img : Type} (env : SwapEnv Img)
    (u : FaceSwapUnitSettings) (image : Img) (info : Option String)
    (upscaled_swapper : Bool) (src_faces : List Face)
    (hchk : u.check_similarity = false) :
    (keptResults env u image info upscaled_swapper src_faces).length
      = src_faces.length := by
  unfold keptResults
  apply length_filterMap_eq_of_isSome
  intro src_face _
  simp only
  have hacc : acceptResult u (swap_face env (u.reference_face.getD src_face)
      src_face image u.faces_index u.same_gender upscaled_swapper
      u.compute_similarity u.sort_by_size) := Or.inl (by simp [hchk])
  rw [if_pos hacc]
  rfl

/-- With `check_similarity` on but `compute_similarity` off, the similarity
maps stay empty so the acceptance condition fails for every candidate. -/
theorem keptResults_nil_of_check_no_compute {Img : Type} (env : SwapEnv Img)
    (u : FaceSwapUnitSettings) (image : Img) (info : Option String)
    (upscaled_swapper : Bool) (src_faces : List Face)
    (hchk : u.check_similarity = true) (hcs : u.compute_similarity = false) :
    keptResults env u image info upscaled_swapper src_faces = [] := by
  unfold keptResults
  rw [List.filterMap_eq_nil_iff]
  intro src_face _
  simp only
  rw [if_neg]
  intro hacc
  rcases hacc with h | ⟨hne, _, _⟩
  · exact h hchk
  · rw [hcs] at hne
    exact hne ((swap_face_no_sim env (u.reference_face.getD src_face)
      src_face image u.faces_index u.same_gender upscaled_swapper
      u.sort_by_size).1)

/-- When the identity-set computation succeeds, its value is the plain
identity set `pyUnitSrcFaces`. -/
theorem pyUnitSrcFacesE_ok (u : FaceSwapUnitSettings) (fb : Bool)
    (l : List Face) (h : pyUnitSrcFacesE u fb = .ok l) :
    l = pyUnitSrcFaces u fb := by
  unfold pyUnitSrcFacesE at h
  unfold pyUnitSrcFaces
  split at h
  · rename_i hc
    rw [if_pos hc]
    exact (Except.ok.inj h).symm
  · rename_i hc
    rw [if_neg hc]
    split at h
    · split at h
      · injection h
      · rename_i rf _
        split at h
        · injection h
        · exact (Except.ok.inj h).symm
    · exact (Except.ok.inj h).symm

/-- Whenever `process_image_unit` returns a result list for an enabled unit
on a safe image, that list consists of the accepted candidates, one
candidate per chosen identity. -/
theorem process_image_unit_ok {Img : Type} (env : SwapEnv Img)
    (model : String) (u : FaceSwapUnitSettings) (image : Img)
    (info : Option String) (upscaled_swapper : Bool)
    (hen : u.enable = true) (hsafe : env.nsfw image = false)
    (res : List (Img × Option String))
    (hres : process_image_unit env model u image info upscaled_swapper false
      = .ok res) :
    res = keptResults env u image info upscaled_swapper
      (pyUnitSrcFaces u false) := by
  unfold process_image_unit at hres
  rw [hen, hsafe] at hres
  replace hres : (pyUnitSrcFacesE u false).map
      (keptResults env u image info upscaled_swapper) = .ok res := hres
  cases hE : pyUnitSrcFacesE u false with
  | error e => rw [hE] at hres; injection hres
  | ok l =>
      rw [hE] at hres
      replace hres : Except.ok (keptResults env u image info upscaled_swapper l)
          = (.ok res : Except PyErr _) := hres
      rw [← pyUnitSrcFacesE_ok u false l hE]
      exact (Except.ok.inj hres).symm

/-! ### Claim C4 -/

/-- C4: for an enabled unit on a content-safe image with `check_similarity`
disabled, every successful run of `process_image_unit` returns exactly one
(image, info) pair per configured source face when `blend_faces` is off, and
exactly one pair when it is on; moreover when `blend_faces` is off the run
always succeeds. -/
theorem C4_unit_fanout {Img : Type} (env : SwapEnv Img) (model : String)
    (u : FaceSwapUnitSettings) (image : Img) (info : Option String)
    (upscaled_swapper : Bool)
    (hen : u.enable = true) (hsafe : env.nsfw image = false)
    (hchk : u.check_similarity = false) :
    (∀ res, process_image_unit env model u image info upscaled_swapper false
        = .ok res →
      res.length = if u.blend_faces = true then 1 else u.faces.length) ∧
    (u.blend_faces = false →
      ∃ res, process_image_unit env model u image info upscaled_swapper false
        = .ok res) := by
  constructor
  · intro res hres
    rw [process_image_unit_ok env model u image info upscaled_swapper hen
      hsafe res hres]
    rw [keptResults_length_of_no_check env u image info upscaled_swapper _
      hchk]
    by_cases hb : u.blend_faces = true
    · simp [pyUnitSrcFaces, hb]
    · simp only [Bool.not_eq_true] at hb
      simp [pyUnitSrcFaces, hb]
  · intro hb
    refine ⟨keptResults env u image info upscaled_swapper u.faces, ?_⟩
    unfold process_image_unit
    rw [hen, hsafe]
    have hE : pyUnitSrcFacesE u false = .ok u.faces := by
      unfold pyUnitSrcFacesE
      rw [if_pos ⟨hb, rfl⟩]
    show (pyUnitSrcFacesE u false).map
      (keptResults env u image info upscaled_swapper) = _
    rw [hE]
    rfl

/-! ### Claim C10 -/

/-- C10: for an enabled unit on a content-safe image with
`check_similarity = true` but `compute_similarity = false`, every successful
run of `process_image_unit` returns the empty list: `swap_face` leaves both
similarity maps empty, and the acceptance condition requires a non-empty
similarity map, so every candidate is silently dropped. -/
theorem C10_check_without_compute_empty {Img : Type} (env : SwapEnv Img)
    (model : String) (u : FaceSwapUnitSettings) (image : Img)
    (info : Option String) (upscaled_swapper : Bool)
    (hen : u.enable = true) (hsafe : env.nsfw image = false)
    (hchk : u.check_similarity = true) (hcs : u.compute_similarity = false) :
    ∀ res, process_image_unit env model u image info upscaled_swapper false
        = .ok res → res = [] := by
  intro res hres
  rw [process_image_unit_ok env model u image info upscaled_swapper hen
    hsafe res hres]
  exact keptResults_nil_of_check_no_compute env u image info upscaled_swapper
    _ hchk hcs

/-! ### Claim C6 -/

/-- Modelled from the spec (§4.5 acceptance rule): keep exactly those
candidates whose computed similarities all meet `min_sim` and whose
computed reference similarities all meet `min_ref_sim`, at least one
similarity having been computed.  This is the comparison target for the
acceptance behaviour of `process_image_unit`. -/
noncomputable def similarityFilteredResults {Img : Type} (env : SwapEnv Img)
    (u : FaceSwapUnitSettings) (image : Img) (info : Option String)
    (upscaled_swapper : Bool) (force_blend : Bool) :
    List (Img × Option String) :=
  (pyUnitSrcFaces u force_blend).filterMap (fun src_face =>
    let result := swap_face env (u.reference_face.getD src_face) src_face
      image u.faces_index u.same_gender upscaled_swapper
      u.compute_similarity u.sort_by_size
    if result.similarity ≠ [] ∧ (∀ p ∈ result.similarity, u.min_sim ≤ p.2) ∧
        (∀ p ∈ result.ref_similarity, u.min_ref_sim ≤ p.2) then
      some (result.image,
        some (env.fmtInfo info result.similarity result.ref_similarity))
    else none)

/-- C6 (amended): for an enabled unit on a content-safe image with
`check_similarity` on, every successful run of `process_image_unit` returns
exactly the similarity-filtered candidates: a candidate with some computed
similarity below `min_sim` or some reference similarity below `min_ref_sim`
is excluded, and a candidate whose similarity map is non-empty and meets
both thresholds everywhere is included.  (A candidate with *no* computed
similarities is excluded even though the thresholds hold vacuously — see
the counterexample.) -/
theorem C6_similarity_gate {Img : Type} (env : SwapEnv Img) (model : String)
    (u : FaceSwapUnitSettings) (image : Img) (info : Option String)
    (upscaled_swapper : Bool)
    (hen : u.enable = true) (hsafe : env.nsfw image = false)
    (hchk : u.check_similarity = true) :
    ∀ res, process_image_unit env model u image info upscaled_swapper false
        = .ok res →
      res = similarityFilteredResults env u image info upscaled_swapper
        false := by
  intro res hres
  rw [process_image_unit_ok env model u image info upscaled_swapper hen
    hsafe res hres]
  unfold keptResults similarityFilteredResults
  apply congrArg (fun f => List.filterMap f (pyUnitSrcFaces u false))
  funext src_face
  simp only
  apply if_congr _ rfl rfl
  unfold acceptResult
  rw [hchk]
  simp

/-- The concrete swap unit used by the counterexamples and witnesses of the
pipeline claims: enabled, one configured source face, `faces_index = {0}`,
no gender filter, no blending, similarity *checking* on but similarity
*computation* off, both thresholds `0`. -/
def WUnitCheckSingle : FaceSwapUnitSettings where
  enable := true
  faces := [cexFace1]
  blended_faces := cexFace1
  reference_face := none
  faces_index := [0]
  same_gender := false
  blend_faces := false
  sort_by_size := false
  check_similarity := true
  compute_similarity := false
  min_sim := 0
  min_ref_sim := 0

/-- C6 counterexample: with `check_similarity` on and `compute_similarity`
off, the single candidate of `WUnitCheckSingle` (its swap arguments spelled
out literally) has empty similarity maps, so *every* computed similarity
trivially meets both thresholds, yet the candidate is excluded: the unit's
output is empty.  The claim's inclusion direction is therefore false as
stated for candidates without computed similarities. -/
theorem C6_cex :
    (∀ p ∈ (swap_face WEnv cexFace1 cexFace1 (0 : ℕ) [0] false false false
        false).similarity, WUnitCheckSingle.min_sim ≤ p.2) ∧
    (∀ p ∈ (swap_face WEnv cexFace1 cexFace1 (0 : ℕ) [0] false false false
        false).ref_similarity, WUnitCheckSingle.min_ref_sim ≤ p.2) ∧
    process_image_unit WEnv "model" WUnitCheckSingle 0 none false false
      = .ok [] := by
  refine ⟨?_, ?_, ?_⟩
  · rw [(swap_face_no_sim WEnv cexFace1 cexFace1 0 [0] false false false).1]
    intro p hp
    simp at hp
  · rw [(swap_face_no_sim WEnv cexFace1 cexFace1 0 [0] false false false).2]
    intro p hp
    simp at hp
  · have hp : process_image_unit WEnv "model" WUnitCheckSingle (0 : ℕ) none
        false false
        = .ok (keptResults WEnv WUnitCheckSingle 0 none false [cexFace1]) :=
      rfl
    rw [keptResults_nil_of_check_no_compute WEnv WUnitCheckSingle 0 none
      false [cexFace1] rfl rfl] at hp
    exact hp

/-- Witness for C6 (amended) at the concrete unit `WUnitCheckSingle`: the
run succeeds with the empty list, which is exactly the similarity-filtered
candidate set. -/
theorem C6_similarity_gate_witness :
    ([] : List (ℕ × Option String))
      = similarityFilteredResults WEnv WUnitCheckSingle 0 none false
          false := by
  have hp : process_image_unit WEnv "model" WUnitCheckSingle (0 : ℕ) none
      false false
      = .ok (keptResults WEnv WUnitCheckSingle 0 none false [cexFace1]) := rfl
  rw [keptResults_nil_of_check_no_compute WEnv WUnitCheckSingle 0 none false
    [cexFace1] rfl rfl] at hp
  exact C6_similarity_gate WEnv "model" WUnitCheckSingle 0 none false rfl rfl
    rfl [] hp

/-- The concrete swap unit for the fan-out witness: as `WUnitCheckSingle`
but with two source faces and `check_similarity` off. -/
def WUnitNoCheck : FaceSwapUnitSettings where
  enable := true
  faces := [cexFace1, cexFace2]
  blended_faces := cexFace1
  reference_face := none
  faces_index := [0]
  same_gender := false
  blend_faces := false
  sort_by_size := false
  check_similarity := false
  compute_similarity := false
  min_sim := 0
  min_ref_sim := 0

/-- Witness for C4 at the concrete unit `WUnitNoCheck` (two source faces,
no blending, no similarity check): the unit produces exactly two pairs. -/
theorem C4_unit_fanout_witness :
    (keptResults WEnv WUnitNoCheck (0 : ℕ) none false
      [cexFace1, cexFace2]).length = 2 := by
  have hp : process_image_unit WEnv "model" WUnitNoCheck (0 : ℕ) none false
      false
      = .ok (keptResults WEnv WUnitNoCheck 0 none false
          [cexFace1, cexFace2]) := rfl
  have h := (C4_unit_fanout WEnv "model" WUnitNoCheck 0 none false rfl rfl
    rfl).1 _ hp
  simpa [WUnitNoCheck] using h

/-- Witness for C10 at the concrete unit `WUnitCheckSingle`: the run
succeeds and returns the empty list. -/
theorem C10_check_without_compute_empty_witness :
    process_image_unit WEnv "model" WUnitCheckSingle (0 : ℕ) none false false
      = .ok [] := by
  have hp : process_image_unit WEnv "model" WUnitCheckSingle (0 : ℕ) none
      false false
      = .ok (keptResults WEnv WUnitCheckSingle 0 none false [cexFace1]) := rfl
  rw [C10_check_without_compute_empty WEnv "model" WUnitCheckSingle 0 none
    false rfl rfl rfl rfl _ hp] at hp
  exact hp

/-! ### Claim C9 -/

theorem dotl_self_eq_zero_cast {a : List ℚ} (h : l2norm a = 0) :
    dotl a a = 0 := by
  have h1 : ((dotl a a : ℚ) : ℝ) ≤ 0 := Real.sqrt_eq_zero'.mp h
  have h2 : (0 : ℚ) ≤ dotl a a := dotl_self_nonneg a
  have h1' : dotl a a ≤ 0 := by exact_mod_cast h1
  exact le_antisymm h1' h2

theorem dotl_eq_zero_of_left_zero {a : List ℚ} (b : List ℚ)
    (h : dotl a a = 0) : dotl a b = 0 := by
  have hcs := dotl_sq_le a b
  rw [h, zero_mul] at hcs
  exact pow_eq_zero_iff two_ne_zero |>.mp (le_antisymm hcs (sq_nonneg _))

theorem dotl_eq_zero_of_right_zero (a : List ℚ) {b : List ℚ}
    (h : dotl b b = 0) : dotl a b = 0 := by
  have hcs := dotl_sq_le a b
  rw [h, mul_zero] at hcs
  exact pow_eq_zero_iff two_ne_zero |>.mp (le_antisymm hcs (sq_nonneg _))

/-- The scorer never exceeds `1` (Cauchy-Schwarz, including the degenerate
zero-norm cases that sklearn maps to a zero score). -/
theorem sk_cosine_le_one (a b : List ℚ) : sk_cosine_similarity a b ≤ 1 := by
  unfold sk_cosine_similarity
  by_cases ha : l2norm a = 0
  · rw [dotl_eq_zero_of_left_zero b (dotl_self_eq_zero_cast ha)]
    norm_num
  · by_cases hb : l2norm b = 0
    · rw [dotl_eq_zero_of_right_zero a (dotl_self_eq_zero_cast hb)]
      norm_num
    · have hA : (0 : ℝ) ≤ ((dotl a a : ℚ) : ℝ) := by
        exact_mod_cast dotl_self_nonneg a
      have hB : (0 : ℝ) ≤ ((dotl b b : ℚ) : ℝ) := by
        exact_mod_cast dotl_self_nonneg b
      have hCS : ((dotl a b : ℚ) : ℝ) ^ 2
          ≤ ((dotl a a : ℚ) : ℝ) * ((dotl b b : ℚ) : ℝ) := by
        exact_mod_cast dotl_sq_le a b
      have hpa : 0 < l2norm a :=
        lt_of_le_of_ne (Real.sqrt_nonneg _) (Ne.symm ha)
      have hpb : 0 < l2norm b :=
        lt_of_le_of_ne (Real.sqrt_nonneg _) (Ne.symm hb)
      rw [sknorm, if_neg ha, sknorm, if_neg hb,
        div_le_one (mul_pos hpa hpb)]
      calc ((dotl a b : ℚ) : ℝ) ≤ |((dotl a b : ℚ) : ℝ)| := le_abs_self _
      _ = Real.sqrt (((dotl a b : ℚ) : ℝ) ^ 2) :=
          (Real.sqrt_sq_eq_abs _).symm
      _ ≤ Real.sqrt (((dotl a a : ℚ) : ℝ) * ((dotl b b : ℚ) : ℝ)) :=
          Real.sqrt_le_sqrt hCS
      _ = l2norm a * l2norm b := Real.sqrt_mul hA _

/-- C9 counterexample: a face with the zero embedding `[0]` has
self-similarity `0`, not `1`: sklearn substitutes norm `1` for the zero
norm, so the raw cosine is `0` and the clamp keeps it at `0`. -/
theorem C9_cex :
    cosine_similarity_face cexFace0 cexFace0 ≠ 1 ∧
    cosine_similarity_face cexFace0 cexFace0 = 0 := by
  have hd : dotl cexFace0.embedding cexFace0.embedding = 0 := by
    norm_num [dotl, cexFace0]
  have h : cosine_similarity_face cexFace0 cexFace0 = 0 := by
    unfold cosine_similarity_face sk_cosine_similarity
    rw [hd]
    norm_num
  exact ⟨by rw [h]; norm_num, h⟩

/-- C9 (amended): the similarity scorer always returns a value in `[0, 1]`
(negative raw cosines clamp to `0`); a face whose embedding is nonzero
(nonzero dot product with itself) has self-similarity exactly `1`; faces
with orthogonal embeddings score exactly `0`.  (A zero embedding has
self-similarity `0`, see the counterexample.) -/
theorem C9_cosine_properties :
    (∀ f1 f2 : Face, f1.embedding.length = f2.embedding.length →
      0 ≤ cosine_similarity_face f1 f2 ∧ cosine_similarity_face f1 f2 ≤ 1) ∧
    (∀ f : Face, dotl f.embedding f.embedding ≠ 0 →
      cosine_similarity_face f f = 1) ∧
    (∀ f1 f2 : Face, dotl f1.embedding f2.embedding = 0 →
      cosine_similarity_face f1 f2 = 0) := by
  refine ⟨?_, ?_, ?_⟩
  · intro f1 f2 _
    exact ⟨le_max_left 0 _,
      max_le (by norm_num) (sk_cosine_le_one f1.embedding f2.embedding)⟩
  · intro f hne
    set a := f.embedding
    have hA : (0 : ℚ) < dotl a a :=
      lt_of_le_of_ne (dotl_self_nonneg a) (Ne.symm hne)
    have hAr : (0 : ℝ) < ((dotl a a : ℚ) : ℝ) := by exact_mod_cast hA
    have hnorm : l2norm a ≠ 0 := by
      unfold l2norm
      rw [Ne, Real.sqrt_eq_zero']
      exact not_le.mpr hAr
    unfold cosine_similarity_face sk_cosine_similarity
    rw [sknorm, if_neg hnorm]
    unfold l2norm
    rw [Real.mul_self_sqrt hAr.le, div_self (ne_of_gt hAr)]
    exact max_eq_right (by norm_num)
  · intro f1 f2 horth
    unfold cosine_similarity_face sk_cosine_similarity
    rw [horth]
    norm_num

/-- Witness for C9 at the embeddings `[1, 0]` and `[0, 1]`: the score is in
`[0, 1]`, the self-similarity of the nonzero embedding `[1, 0]` is `1`, and
the orthogonal pair scores `0`. -/
theorem C9_cosine_properties_witness :
    (0 ≤ cosine_similarity_face (mkBlendedFace [1, 0] 0 30)
        (mkBlendedFace [0, 1] 1 25) ∧
      cosine_similarity_face (mkBlendedFace [1, 0] 0 30)
        (mkBlendedFace [0, 1] 1 25) ≤ 1) ∧
    cosine_similarity_face (mkBlendedFace [1, 0] 0 30)
      (mkBlendedFace [1, 0] 0 30) = 1 ∧
    cosine_similarity_face (mkBlendedFace [1, 0] 0 30)
      (mkBlendedFace [0, 1] 1 25) = 0 := by
  refine ⟨?_, ?_, ?_⟩
  · exact C9_cosine_properties.1 (mkBlendedFace [1, 0] 0 30)
      (mkBlendedFace [0, 1] 1 25) rfl
  · exact C9_cosine_properties.2.1 (mkBlendedFace [1, 0] 0 30)
      (by norm_num [dotl, mkBlendedFace])
  · exact C9_cosine_properties.2.2 (mkBlendedFace [1, 0] 0 30)
      (mkBlendedFace [0, 1] 1 25) (by norm_num [dotl, mkBlendedFace])

end FaceSwapLab
